import Mathlib

/-!
Verification of the request-dispatch core of a typed REST API client
(`src/src/client.rs`): the `ApiResponse` envelope and its accessors, the
optional-parameter helper `maybe_add`, and the generic dispatcher
`Client.get`, which appends the credential, renders and parses the URL,
performs one HTTP GET through an injectable transport, classifies the
status (429 means rate-limited), and decodes any other body as JSON into
the caller-chosen type.  The external collaborators — URL parsing
(`reqwest::Url::parse`), the HTTP transport (`reqwest::get`), and JSON
decoding (`serde_json`) — are abstracted as function parameters, matching
the spec's requirement that the network step be an injectable capability.
-/

/-- Percent-encoding hexadecimal digits, uppercase. -/
def hexDigits : List Char :=
  ['0', '1', '2', '3', '4', '5', '6', '7', '8', '9', 'A', 'B', 'C', 'D', 'E', 'F']

/-- Modelled from the spec: the URL Builder (`crate::url_builder`, not under
`src/`) URL-escapes parameter text; unreserved characters (alphanumerics and
`-._~`) pass through unchanged. -/
def isUnreservedChar (c : Char) : Bool :=
  c.isAlphanum || c == '-' || c == '.' || c == '_' || c == '~'

/-- Modelled from the spec: percent-encode one code point as a two-digit
hexadecimal escape. -/
def percentEncode (n : Nat) : String :=
  "%" ++ String.singleton (hexDigits.getD (n / 16 % 16) '0')
      ++ String.singleton (hexDigits.getD (n % 16) '0')

/-- Modelled from the spec: URL-escape one query-component string, leaving
unreserved characters and percent-encoding the rest. -/
def urlEscape (s : String) : String :=
  String.join (s.data.map fun c =>
    if isUnreservedChar c then String.singleton c else percentEncode c.toNat)

/-- Modelled from the spec: the URL Builder component (`crate::url_builder`,
not under `src/`): "No state beyond the configured root." -/
structure UrlBuilder where
  root : String
deriving Repr, DecidableEq

/-- Modelled from the spec: construct a Builder from a root. -/
def UrlBuilder.new (root : String) : UrlBuilder :=
  ⟨root⟩

/-- Modelled from the spec: one rendered `key=value` query component, both
sides URL-escaped. -/
def renderParam (p : String × String) : String :=
  urlEscape p.1 ++ "=" ++ urlEscape p.2

/-- Modelled from the spec: the query string, parameters "URL-escaped and
joined by `&`" in the caller-given order. -/
def UrlBuilder.queryString : List (String × String) → String
  | [] => ""
  | [p] => renderParam p
  | p :: rest => renderParam p ++ "&" ++ UrlBuilder.queryString rest

/-- Modelled from the spec: deterministically render
`\x7broot\x7d/\x7bendpoint\x7d?\x7bquery-string\x7d`. -/
def UrlBuilder.url (b : UrlBuilder) (endpoint : String)
    (params : List (String × String)) : String :=
  b.root ++ "/" ++ endpoint ++ "?" ++ UrlBuilder.queryString params

/-- The response envelope of `client.rs`: a successfully decoded payload or
the rate-limit signal. -/
inductive ApiResponse (T : Type) where
  | Response : T → ApiResponse T
  | RateLimitReached : ApiResponse T
deriving Repr, DecidableEq

/-- Rust `ApiResponse::is_response`: true iff the response is `Response(..)`. -/
def ApiResponse.is_response {T : Type} : ApiResponse T → Bool
  | .Response _ => true
  | .RateLimitReached => false

/-- Rust `ApiResponse::as_response`: the inner value, if the response is
`Response`. -/
def ApiResponse.as_response {T : Type} : ApiResponse T → Option T
  | .Response v => some v
  | .RateLimitReached => none

/-- Rust `ApiResponse::try_into_response`: the inner value, or the untouched
original on failure. -/
def ApiResponse.try_into_response {T : Type} : ApiResponse T → Except (ApiResponse T) T
  | .Response v => .ok v
  | r => .error r

/-- Rust `ApiResponse::is_rate_limit_reached`. -/
def ApiResponse.is_rate_limit_reached {T : Type} : ApiResponse T → Bool
  | .Response _ => false
  | .RateLimitReached => true

/-- The error taxonomy of the dispatcher (spec §7): invalid rendered URL,
transport failure, or JSON decode failure, each carrying its description. -/
inductive ApiError where
  | InvalidUrl : String → ApiError
  | TransportError : String → ApiError
  | DecodeError : String → ApiError
deriving Repr, DecidableEq

/-- The client of `client.rs`: an API key and a URL builder. -/
structure Client where
  api_key : String
  url_bldr : UrlBuilder
deriving Repr, DecidableEq

/-- Rust `Client::v1`. -/
def Client.v1 (api_key : String) : Client :=
  ⟨api_key, UrlBuilder.new "https://finnhub.io/api/v1"⟩

/-- Rust `Client::new`, which delegates to `v1`. -/
def Client.new (api_key : String) : Client :=
  Client.v1 api_key

/-- What the transport hands back: an HTTP status code and a body. -/
structure HttpResponse where
  status : Nat
  body : String
deriving Repr, DecidableEq

/-- The parameter list `Client::get` passes to the builder: the caller's
parameters with `("token", api_key)` pushed at the end
(`params.push(("token", self.api_key.clone()))`). -/
def Client.requestParams (c : Client) (params : List (String × String)) :
    List (String × String) :=
  params ++ [("token", c.api_key)]

/-- The URL string `Client::get` renders before parsing it
(`self.url_bldr.url(endpoint, params)` after the token push). -/
def Client.requestUrlString (c : Client) (endpoint : String)
    (params : List (String × String)) : String :=
  c.url_bldr.url endpoint (c.requestParams params)

/-- Rust `Client::get` (the non-test path), with the external collaborators
injected: `parse` for `reqwest::Url::parse`, `fetch` for the one `reqwest::get`
round-trip, and `decode` for `res.json::<T>()`.  Mirrors the source line by
line: push the token, render the URL, parse it (`?` propagating `InvalidUrl`),
fetch (`?` propagating the transport error), return `RateLimitReached` on
status 429, otherwise decode the body into `T`. -/
def Client.get {T U : Type} (parse : String → Option U)
    (fetch : U → Except String HttpResponse)
    (decode : String → Except String T)
    (c : Client) (endpoint : String) (params : List (String × String)) :
    Except ApiError (ApiResponse T × U) :=
  let url_str := c.requestUrlString endpoint params
  match parse url_str with
  | none => .error (.InvalidUrl url_str)
  | some url =>
    match fetch url with
    | .error e => .error (.TransportError e)
    | .ok res =>
      if res.status == 429 then
        .ok (.RateLimitReached, url)
      else
        match decode res.body with
        | .error e => .error (.DecodeError e)
        | .ok v => .ok (.Response v, url)

/-- Rust `Client::get` run against a transport trace: the list holds the
responses successive network calls would return, and the returned list is
what is left of it, so that the number of consumed elements counts the
outbound network calls of one invocation.  Control flow is identical to
`Client.get`. -/
def Client.getTrace {T U : Type} (parse : String → Option U)
    (decode : String → Except String T)
    (c : Client) (endpoint : String) (params : List (String × String))
    (trace : List (Except String HttpResponse)) :
    Except ApiError (ApiResponse T × U) × List (Except String HttpResponse) :=
  let url_str := c.requestUrlString endpoint params
  match parse url_str with
  | none => (.error (.InvalidUrl url_str), trace)
  | some url =>
    match trace with
    | [] => (.error (.TransportError "no response"), [])
    | r :: rest =>
      match r with
      | .error e => (.error (.TransportError e), rest)
      | .ok res =>
        if res.status == 429 then
          (.ok (.RateLimitReached, url), rest)
        else
          match decode res.body with
          | .error e => (.error (.DecodeError e), rest)
          | .ok v => (.ok (.Response v, url), rest)

/-- Rust `Client::maybe_add`: append `(param, canonical text of value)` when
the optional value is present, leave the list alone when it is absent. -/
def Client.maybe_add {T : Type} [ToString T]
    (params : List (String × String)) (param : String) (value : Option T) :
    List (String × String) :=
  match value with
  | some v => params ++ [(param, toString v)]
  | none => params

/-- Appending one pair to the parameter list extends the rendered query
string at its end, with the `&` separator exactly when the list was
non-empty. -/
theorem queryString_append_single (params : List (String × String))
    (p : String × String) :
    UrlBuilder.queryString (params ++ [p]) =
      UrlBuilder.queryString params ++
        (if params.isEmpty then "" else "&") ++ renderParam p := by
  induction params with
  | nil => simp [UrlBuilder.queryString]
  | cons q t ih =>
    cases t with
    | nil => simp [UrlBuilder.queryString]
    | cons q2 t2 =>
      have h2 : UrlBuilder.queryString ((q :: q2 :: t2) ++ [p]) =
          renderParam q ++ "&" ++ UrlBuilder.queryString ((q2 :: t2) ++ [p]) := rfl
      have h3 : UrlBuilder.queryString (q :: q2 :: t2) =
          renderParam q ++ "&" ++ UrlBuilder.queryString (q2 :: t2) := rfl
      rw [h2, ih, h3]
      simp [String.append_assoc]

/-- C1: if the rendered URL parses, the transport answers with a status other
than 429, and the body decodes as JSON into `T` with value `v`, then `get`
returns `Ok` with outcome `Response v` paired with the resolved URL. -/
theorem get_response_roundtrip {T U : Type} (parse : String → Option U)
    (fetch : U → Except String HttpResponse) (decode : String → Except String T)
    (c : Client) (endpoint : String) (params : List (String × String))
    (url : U) (res : HttpResponse) (v : T)
    (hp : parse (c.requestUrlString endpoint params) = some url)
    (hf : fetch url = .ok res)
    (hs : res.status ≠ 429)
    (hd : decode res.body = .ok v) :
    Client.get parse fetch decode c endpoint params = .ok (.Response v, url) := by
  simp [Client.get, hp, hf, hd, hs]

/-- Witness for C1: a concrete 200-status round trip decodes to the value. -/
theorem get_response_roundtrip_witness :
    Client.get (T := Nat) (U := String) (fun s => some s)
      (fun _ => .ok ⟨200, "5"⟩) (fun _ => .ok 5)
      (Client.v1 "k") "quote" [("symbol", "AAPL")] =
      .ok (.Response 5, "https://finnhub.io/api/v1/quote?symbol=AAPL&token=k") :=
  get_response_roundtrip _ _ _ _ _ _ _ _ _ rfl rfl (by decide) rfl

/-- C2: on HTTP status 429 `get` returns `Ok` with outcome `RateLimitReached`
paired with the resolved URL, for every decode function alike — the body is
never decoded and the rate-limit signal travels on the success channel. -/
theorem get_rate_limit_value {T U : Type} (parse : String → Option U)
    (fetch : U → Except String HttpResponse) (decode : String → Except String T)
    (c : Client) (endpoint : String) (params : List (String × String))
    (url : U) (res : HttpResponse)
    (hp : parse (c.requestUrlString endpoint params) = some url)
    (hf : fetch url = .ok res)
    (hs : res.status = 429) :
    Client.get parse fetch decode c endpoint params = .ok (.RateLimitReached, url) := by
  simp [Client.get, hp, hf, hs]

/-- Witness for C2: a concrete 429 answer yields the rate-limit outcome even
though the decoder rejects every body. -/
theorem get_rate_limit_value_witness :
    Client.get (T := Nat) (U := String) (fun s => some s)
      (fun _ => .ok ⟨429, "slow down"⟩) (fun _ => .error "never decodes")
      (Client.v1 "k") "quote" [("symbol", "AAPL")] =
      .ok (.RateLimitReached, "https://finnhub.io/api/v1/quote?symbol=AAPL&token=k") :=
  get_rate_limit_value _ _ _ _ _ _ _ _ rfl rfl rfl

/-- C3: `get` appends `("token", api_key)` after all caller-supplied
parameters — the list handed to the builder keeps the caller's parameters
unchanged as a prefix, ends with the token pair, and in the rendered query
string the token component comes strictly after every caller component. -/
theorem get_credential_last (c : Client) (endpoint : String)
    (params : List (String × String)) :
    (c.requestParams params).take params.length = params ∧
    (c.requestParams params).drop params.length = [("token", c.api_key)] ∧
    c.requestUrlString endpoint params =
      c.url_bldr.root ++ "/" ++ endpoint ++ "?" ++
        (UrlBuilder.queryString params ++
          (if params.isEmpty then "" else "&") ++
          renderParam ("token", c.api_key)) := by
  refine ⟨?_, ?_, ?_⟩
  · simp [Client.requestParams]
  · simp [Client.requestParams]
  · simp [Client.requestUrlString, Client.requestParams, UrlBuilder.url,
      queryString_append_single, String.append_assoc]

/-- C4: if the rendered request string does not parse as a URL, `get` fails
with `InvalidUrl` carrying that string, whatever the transport is, and no
network call happens — the transport trace is left untouched. -/
theorem get_invalid_url {T U : Type} (parse : String → Option U)
    (decode : String → Except String T)
    (c : Client) (endpoint : String) (params : List (String × String))
    (hp : parse (c.requestUrlString endpoint params) = none) :
    (∀ fetch : U → Except String HttpResponse,
      Client.get parse fetch decode c endpoint params =
        .error (.InvalidUrl (c.requestUrlString endpoint params))) ∧
    (∀ trace, (Client.getTrace parse decode c endpoint params trace).2 = trace) := by
  constructor
  · intro fetch
    simp [Client.get, hp]
  · intro trace
    simp [Client.getTrace, hp]

/-- Witness for C4: a concrete always-failing parser produces `InvalidUrl`
and consumes nothing from the transport trace. -/
theorem get_invalid_url_witness :
    Client.get (T := Nat) (U := String) (fun _ => none)
      (fun _ => .ok ⟨200, "body"⟩) (fun _ => .ok 0)
      (Client.v1 "k") "quote" [] =
      .error (.InvalidUrl ((Client.v1 "k").requestUrlString "quote" [])) ∧
    (Client.getTrace (T := Nat) (U := String) (fun _ => none) (fun _ => .ok 0)
      (Client.v1 "k") "quote" [] [.ok ⟨200, "body"⟩]).2 = [.ok ⟨200, "body"⟩] :=
  ⟨(get_invalid_url _ _ _ _ _ rfl).1 _, (get_invalid_url _ _ _ _ _ rfl).2 _⟩

/-- C5: on a non-429 status whose body fails to decode into `T`, `get` fails
through the error channel with `DecodeError` carrying the decoder's
description — no `Response` value is produced. -/
theorem get_decode_error {T U : Type} (parse : String → Option U)
    (fetch : U → Except String HttpResponse) (decode : String → Except String T)
    (c : Client) (endpoint : String) (params : List (String × String))
    (url : U) (res : HttpResponse) (e : String)
    (hp : parse (c.requestUrlString endpoint params) = some url)
    (hf : fetch url = .ok res)
    (hs : res.status ≠ 429)
    (hd : decode res.body = .error e) :
    Client.get parse fetch decode c endpoint params = .error (.DecodeError e) := by
  simp [Client.get, hp, hf, hs, hd]

/-- Witness for C5: a concrete 200-status body the decoder rejects surfaces
as a `DecodeError`. -/
theorem get_decode_error_witness :
    Client.get (T := Nat) (U := String) (fun s => some s)
      (fun _ => .ok ⟨200, "missing field"⟩) (fun _ => .error "wrong shape")
      (Client.v1 "k") "quote" [("symbol", "AAPL")] =
      .error (.DecodeError "wrong shape") :=
  get_decode_error _ _ _ _ _ _ _ _ _ rfl rfl (by decide) rfl

/-- C6: every status other than 429 takes the success path and the result is
exactly what decoding the body dictates — `Ok (Response v, url)` when the
decoder accepts, `DecodeError` when it rejects, with no special-casing of
4xx or 5xx. -/
theorem get_other_status_decodes {T U : Type} (parse : String → Option U)
    (fetch : U → Except String HttpResponse) (decode : String → Except String T)
    (c : Client) (endpoint : String) (params : List (String × String))
    (url : U) (res : HttpResponse)
    (hp : parse (c.requestUrlString endpoint params) = some url)
    (hf : fetch url = .ok res)
    (hs : res.status ≠ 429) :
    Client.get parse fetch decode c endpoint params =
      match decode res.body with
      | .ok v => .ok (.Response v, url)
      | .error e => .error (.DecodeError e) := by
  cases hd : decode res.body with
  | ok v => simp [Client.get, hp, hf, hs, hd]
  | error e => simp [Client.get, hp, hf, hs, hd]

/-- Witness for C6: at a concrete status 500 with a non-JSON body, `get`
attempts the decode and surfaces the decoder's failure. -/
theorem get_other_status_decodes_witness :
    Client.get (T := Nat) (U := String) (fun s => some s)
      (fun _ => .ok ⟨500, "Internal Server Error"⟩) (fun _ => .error "not JSON")
      (Client.v1 "k") "quote" [] =
      match (fun _ => Except.error "not JSON" : String → Except String Nat)
          "Internal Server Error" with
      | .ok v => .ok (.Response v, "https://finnhub.io/api/v1/quote?token=k")
      | .error e => .error (.DecodeError e) :=
  get_other_status_decodes _ _ _ _ _ _ _ _ rfl rfl (by decide)

/-- C7: the URL Builder is deterministic — any two builders configured with
the same root render the same string for the same endpoint and ordered
parameter sequence, on every invocation. -/
theorem url_deterministic (b1 b2 : UrlBuilder) (endpoint : String)
    (params : List (String × String)) (h : b1.root = b2.root) :
    b1.url endpoint params = b2.url endpoint params := by
  cases b1
  cases b2
  cases h
  rfl

/-- Witness for C7: two separately constructed builders over the spec's
example root agree on the example request. -/
theorem url_deterministic_witness :
    (UrlBuilder.new "https://api.example.com/v1").root =
      (UrlBuilder.mk "https://api.example.com/v1").root ∧
    (UrlBuilder.new "https://api.example.com/v1").url "quote" [("symbol", "AAPL")] =
      (UrlBuilder.mk "https://api.example.com/v1").url "quote" [("symbol", "AAPL")] :=
  ⟨rfl, url_deterministic _ _ _ _ rfl⟩

/-- C8: when the rendered URL parses, one invocation consumes exactly one
response from the transport trace — no retry, no extra request, no cached
substitute — and that single response fully determines the result, which
coincides with `get` run against a transport answering it. -/
theorem get_single_request {T U : Type} (parse : String → Option U)
    (decode : String → Except String T)
    (c : Client) (endpoint : String) (params : List (String × String))
    (url : U) (r : Except String HttpResponse)
    (rest : List (Except String HttpResponse))
    (hp : parse (c.requestUrlString endpoint params) = some url) :
    (Client.getTrace parse decode c endpoint params (r :: rest)).2 = rest ∧
    (Client.getTrace parse decode c endpoint params (r :: rest)).1 =
      Client.get parse (fun _ => r) decode c endpoint params := by
  cases r with
  | error e => simp [Client.getTrace, Client.get, hp]
  | ok res =>
    by_cases hs : res.status == 429
    · simp [Client.getTrace, Client.get, hp, hs]
    · cases hd : decode res.body with
      | ok v => simp [Client.getTrace, Client.get, hp, hs, hd]
      | error e => simp [Client.getTrace, Client.get, hp, hs, hd]

/-- Witness for C8: a concrete two-element trace loses exactly its head, and
the result matches the single-response transport. -/
theorem get_single_request_witness :
    (Client.getTrace (T := Nat) (U := String) (fun s => some s) (fun _ => .ok 7)
      (Client.v1 "k") "quote" [] [.ok ⟨200, "7"⟩, .ok ⟨500, "x"⟩]).2 =
      [.ok ⟨500, "x"⟩] ∧
    (Client.getTrace (T := Nat) (U := String) (fun s => some s) (fun _ => .ok 7)
      (Client.v1 "k") "quote" [] [.ok ⟨200, "7"⟩, .ok ⟨500, "x"⟩]).1 =
      Client.get (fun s => some s) (fun _ => .ok ⟨200, "7"⟩) (fun _ => .ok 7)
        (Client.v1 "k") "quote" [] :=
  get_single_request _ _ _ _ _ _ _ _ rfl

/-- C9: `maybe_add` leaves the list untouched for an absent value and, for a
present value, appends exactly the pair of the key and the value's canonical
text at the end, with the existing parameters kept unchanged in order as the
prefix. -/
theorem maybe_add_spec {T : Type} [ToString T] (params : List (String × String))
    (param : String) (v : T) :
    Client.maybe_add params param (none : Option T) = params ∧
    Client.maybe_add params param (some v) = params ++ [(param, toString v)] ∧
    (Client.maybe_add params param (some v)).take params.length = params ∧
    (Client.maybe_add params param (some v)).drop params.length =
      [(param, toString v)] := by
  refine ⟨rfl, rfl, ?_, ?_⟩ <;> simp [Client.maybe_add]

/-- C10: the `ApiResponse` accessors are mutually coherent: `is_response`
holds exactly on `Response v`, exactly when `as_response` is `some`, and is
the negation of `is_rate_limit_reached`; `try_into_response` yields `Ok v`
exactly on `Response v` and otherwise returns the original value unchanged
as the error. -/
theorem apiResponse_accessors_coherent {T : Type} (r : ApiResponse T) (v : T) :
    (r.is_response = true ↔ ∃ w, r = .Response w) ∧
    (r.is_response = true ↔ r.as_response.isSome = true) ∧
    (r.is_rate_limit_reached = !r.is_response) ∧
    (r.try_into_response = .ok v ↔ r = .Response v) ∧
    (r.is_response = false → r.try_into_response = .error r) := by
  cases r with
  | Response w =>
    refine ⟨⟨fun _ => ⟨w, rfl⟩, fun _ => rfl⟩, ⟨fun _ => rfl, fun _ => rfl⟩, rfl, ?_, ?_⟩
    · constructor
      · intro h
        simpa [ApiResponse.try_into_response] using h
      · intro h
        simp_all [ApiResponse.try_into_response]
    · intro h
      simp [ApiResponse.is_response] at h
  | RateLimitReached =>
    refine ⟨?_, ?_, rfl, ?_, fun _ => rfl⟩
    · simp [ApiResponse.is_response]
    · simp [ApiResponse.is_response, ApiResponse.as_response]
    · simp [ApiResponse.try_into_response]

/-- Witness for C10: the accessor coherence evaluated on both concrete
variants. -/
theorem apiResponse_accessors_coherent_witness :
    (ApiResponse.Response (3 : Nat)).is_response = true ∧
    (ApiResponse.RateLimitReached : ApiResponse Nat).try_into_response =
      .error .RateLimitReached :=
  ⟨(apiResponse_accessors_coherent (ApiResponse.Response 3) 3).2.1.mpr rfl,
   (apiResponse_accessors_coherent (ApiResponse.RateLimitReached : ApiResponse Nat)
      3).2.2.2.2 rfl⟩
